import Mathlib

/-!
Verification development for the syllabus accessibility checker
(`syllabus_checker.py`).  Text is modelled as `List Char`; the document
model (paragraphs, runs, table cells) is embedded as Lean structures
mirroring the attributes the checker reads from the docx object model.
Rational arithmetic (`ℚ`) stands for Python's numeric expressions; the
WCAG contrast functions, which use a real-valued power, are embedded
over `ℝ`.
-/

/-- Text, modelled as a list of characters (Python `str`). -/
abbrev Str := List Char

/-- Coerce a Lean string literal into the `Str` model. -/
def chars (s : String) : Str := s.toList

/-- The ASCII whitespace characters recognised by Python's `str.strip`,
`str.split` and the regex class `\s`. -/
def pySpace (c : Char) : Bool :=
  c == ' ' || c == '\t' || c == '\n' || c == '\r' || c == '\x0b' || c == '\x0c'

/-- Python `str.strip()`: drop leading and trailing whitespace. -/
def pyStrip (s : Str) : Str :=
  ((s.dropWhile pySpace).reverse.dropWhile pySpace).reverse

/-- Python `str.lower()` (ASCII letters; the checker's keyword catalog is
ASCII). -/
def lowerStr (s : Str) : Str := s.map Char.toLower

/-- Predicate `leadsWith p s`: `p` is an initial segment of `s`
(Python `str.startswith`). -/
def leadsWith : Str → Str → Bool
  | [], _ => true
  | _ :: _, [] => false
  | a :: as, b :: bs => a == b && leadsWith as bs

/-- Python's containment test `needle in hay` on strings. -/
def containsSub : Str → Str → Bool
  | [], needle => needle.isEmpty
  | c :: rest, needle => leadsWith needle (c :: rest) || containsSub rest needle

/-- Decimal rendering of a natural number (Python f-string interpolation). -/
def natStr (n : Nat) : Str := (toString n).toList

/-- Python `sep.join(parts)`. -/
def joinSep (sep : Str) : List Str → Str
  | [] => []
  | [p] => p
  | p :: q :: rest => p ++ sep ++ joinSep sep (q :: rest)

/-- Python `len(s.split())`: the number of maximal whitespace-free runs in `s`.
The flag records whether the previous character was whitespace (true at
the start). -/
def wordCountGo : List Char → Bool → Nat
  | [], _ => 0
  | c :: rest, prevSpace =>
    (if !pySpace c && prevSpace then 1 else 0) + wordCountGo rest (pySpace c)

/-- Word count of a sentence, as `len(sentence.split())` computes it. -/
def word_count (s : Str) : Nat := wordCountGo s true

/-- Sentence-ending punctuation, the class `[.!?]` of the splitting regex. -/
def sentPunct (c : Char) : Bool := c == '.' || c == '!' || c == '?'

/-- Locate the first separator matched by the regex `[.!?]+\s+` in `s`.
Returns `some (before, after)` where `before` is the text preceding the
separator and `after` the text following it, or `none` when no separator
occurs.  A maximal punctuation run counts as a separator exactly when the
character after it is whitespace, which is what the regex's greedy
matching with backtracking amounts to for this pattern. -/
def sep_split : List Char → Option (List Char × List Char)
  | [] => none
  | c :: rest =>
    if sentPunct c then
      match rest.dropWhile sentPunct with
      | [] => none
      | d :: rest2 =>
        if pySpace d then some ([], rest2.dropWhile pySpace)
        else (sep_split rest).map fun p => (c :: p.1, p.2)
    else (sep_split rest).map fun p => (c :: p.1, p.2)

theorem lengthDropWhileLe (p : Char → Bool) (l : List Char) :
    (l.dropWhile p).length ≤ l.length := by
  induction l with
  | nil => simp [List.dropWhile]
  | cons c rest ih =>
    simp only [List.dropWhile]
    cases hp : p c with
    | true => exact le_trans ih (Nat.le_succ _)
    | false => exact le_refl _

theorem sep_split_shrink :
    ∀ s b a, sep_split s = some (b, a) → a.length < s.length := by
  intro s
  induction s with
  | nil => intro b a h; simp [sep_split] at h
  | cons c rest ih =>
    intro b a h
    simp only [sep_split] at h
    by_cases hc : sentPunct c = true
    · rw [if_pos hc] at h
      cases hdw : rest.dropWhile sentPunct with
      | nil => rw [hdw] at h; exact absurd h (by simp)
      | cons d rest2 =>
        rw [hdw] at h
        have h' : (if pySpace d = true then some (([] : List Char), rest2.dropWhile pySpace)
            else Option.map (fun p => (c :: p.1, p.2)) (sep_split rest)) = some (b, a) := h
        by_cases hd : pySpace d = true
        · rw [if_pos hd] at h'
          have ha : a = rest2.dropWhile pySpace := by
            simp only [Option.some.injEq, Prod.mk.injEq] at h'
            exact h'.2.symm
          have h1 : a.length ≤ rest2.length := ha ▸ lengthDropWhileLe pySpace rest2
          have h2 : (d :: rest2).length ≤ rest.length := by
            calc (d :: rest2).length = (rest.dropWhile sentPunct).length := by rw [hdw]
              _ ≤ rest.length := lengthDropWhileLe sentPunct rest
          simp only [List.length_cons] at h2 ⊢
          omega
        · rw [if_neg hd] at h'
          rcases Option.map_eq_some'.mp h' with ⟨⟨b', a'⟩, hrec, heq⟩
          have := ih b' a' hrec
          have haa : a = a' := by
            simp only [Prod.mk.injEq] at heq
            exact heq.2.symm
          subst haa
          simp only [List.length_cons]
          omega
    · rw [if_neg hc] at h
      rcases Option.map_eq_some'.mp h with ⟨⟨b', a'⟩, hrec, heq⟩
      have := ih b' a' hrec
      have haa : a = a' := by
        simp only [Prod.mk.injEq] at heq
        exact heq.2.symm
      subst haa
      simp only [List.length_cons]
      omega

/-- Python `re.split` on the pattern `[.!?]+\s+`, written with explicit fuel so the
definition stays structurally recursive (and hence evaluable by the
kernel).  Each separator consumes at least two characters, so fuel
`s.length + 1` is never exhausted; the fuel-out branch mirrors the
no-separator result. -/
def splitSentencesFuel : Nat → List Char → List (List Char)
  | 0, s => [s]
  | fuel + 1, s =>
    match sep_split s with
    | none => [s]
    | some (b, a) => b :: splitSentencesFuel fuel a

/-- Sentence splitting as performed by `check_long_sentences`. -/
def split_sentences (s : List Char) : List (List Char) :=
  splitSentencesFuel (s.length + 1) s

/-- One run of styled text (`docx` run): the attributes
`_table_has_header_row` reads.  `bold` is the truthiness of `run.bold`
(Python `None` counts as not bold); `szHalfPt` is the font size in
half-points when a size is set — the integer unit the document format
stores, with `run.font.size.pt = szHalfPt / 2`. -/
structure TextRun where
  bold : Bool
  szHalfPt : Option ℕ
deriving DecidableEq

/-- One paragraph: its style name, runs, plain text and alignment, the
accessors used by the checker. -/
structure Para where
  styleName : Str
  runs : List TextRun
  text : Str
  align : Option Str
deriving DecidableEq

/-- One table cell: its paragraphs, its flattened text (`cell.text`) and
its shading fill attribute, `none` covering both a missing `w:shd`
element and a missing `w:fill` attribute. -/
structure Cell where
  paras : List Para
  text : Str
  fill : Option Str
deriving DecidableEq

/-- One table: its rows of cells and the grid column count
(`len(table.columns)`). -/
structure Table where
  rows : List (List Cell)
  cols : Nat
deriving DecidableEq

/-- An `AccessibilityIssue` record. -/
structure Issue where
  issueType : Str
  description : Str
  location : Str
  tableIndex : Option Nat
deriving DecidableEq

/-- The analysed document: its top-level paragraphs and its tables. -/
structure Docu where
  paras : List Para
  tables : List Table
deriving DecidableEq

/-- Does any run of any paragraph of the cell carry bold text? -/
def cellHasBold (c : Cell) : Bool :=
  c.paras.any fun p => p.runs.any fun r => r.bold

/-- Does any run of any paragraph of the cell use a font size above 11pt
(`run.font.size.pt > 11`, i.e. more than 22 half-points)? -/
def cellHasLargeFont (c : Cell) : Bool :=
  c.paras.any fun p => p.runs.any fun r =>
    match r.szHalfPt with
    | some sz => decide (22 < sz)
    | none => false

/-- Is the cell shaded: a fill attribute present, truthy, and neither
`auto` nor white (`FFFFFF`)? -/
def cellShaded (c : Cell) : Bool :=
  match c.fill with
  | some f => !f.isEmpty && !(f == chars "auto") && !(f == chars "FFFFFF")
  | none => false

/-- Embeds `_table_has_header_row`: the first row is a header when at least 50%
of its cells are bold, or at least 50% are shaded, or at least 50% use a
large font; a table with no rows has no header. -/
def table_has_header_row (t : Table) : Bool :=
  match t.rows with
  | [] => false
  | firstRow :: _ =>
    let numCells := firstRow.length
    let boldCount := (firstRow.filter cellHasBold).length
    let shadedCount := (firstRow.filter cellShaded).length
    let largeCount := (firstRow.filter cellHasLargeFont).length
    -- `count >= num_cells * 0.5`, written over ℕ: `k ≥ n/2 ↔ n ≤ 2k`
    decide (numCells ≤ 2 * boldCount) ||
    decide (numCells ≤ 2 * shadedCount) ||
    decide (numCells ≤ 2 * largeCount)

/-- The `TABLE_NO_HEADER` issue for table `i` (0-based). -/
def headerIssue (i : Nat) (t : Table) : Issue :=
  { issueType := chars "TABLE_NO_HEADER"
  , description := chars "Table " ++ natStr (i + 1) ++
      chars " appears to lack header row. First row: \"" ++
      joinSep (chars " | ") ((t.rows.headD []).map fun c => (pyStrip c.text).take 20) ++
      chars "...\""
  , location := chars "Table " ++ natStr (i + 1)
  , tableIndex := some i }

/-- Embeds `check_table_headers`: flag each table that has more than one row and
fails the header-row test. -/
def check_table_headers (tables : List Table) : List Issue :=
  tables.enum.filterMap fun p =>
    if !table_has_header_row p.2 && decide (1 < p.2.rows.length)
    then some (headerIssue p.1 p.2) else none

/-- Stripped text length of every cell, in row-major order
(`cell_lengths` in `check_layout_tables`). -/
def cell_lengths (t : Table) : List Nat :=
  t.rows.flatten.map fun c => (pyStrip c.text).length

/-- The row shape `0 < len(cell0) < 50 and len(cell1) > len(cell0)` used
by the label/value heuristic (rows with fewer than 2 cells never match). -/
def label_value_row (row : List Cell) : Bool :=
  match row with
  | c1 :: c2 :: _ =>
    let l1 := (pyStrip c1.text).length
    let l2 := (pyStrip c2.text).length
    decide (0 < l1) && decide (l1 < 50) && decide (l1 < l2)
  | _ => false

/-- Mean of a list of naturals, over `ℚ` (`statistics.mean`). -/
def qmean (l : List Nat) : ℚ :=
  (l.sum : ℚ) / (l.length : ℚ)

/-- Sample variance over `ℚ`: the square of `statistics.stdev`. -/
def sampleVar (l : List Nat) : ℚ :=
  ((l.map fun x => ((Nat.cast x : ℚ) - qmean l) ^ 2).sum) / ((l.length : ℚ) - 1)

/-- Strong layout signal: exactly one column or exactly one row. -/
def strong_signal (t : Table) : Bool :=
  t.cols == 1 || t.rows.length == 1

/-- Weak layout signal: no header row and more than 30% of the cells are
empty: `empty_cells / total_cells > 0.3`, written over ℕ as
`3 * total < 10 * empty` (exact for a positive denominator). -/
def weak_empty (t : Table) : Bool :=
  let lens := cell_lengths t
  let total := lens.length
  let empty := (lens.filter fun n => n == 0).length
  !table_has_header_row t && decide (0 < total) &&
    decide (3 * total < 10 * empty)

/-- Weak layout signal: no header row and some cell text longer than 500
characters. -/
def weak_long_cell (t : Table) : Bool :=
  !table_has_header_row t &&
    decide (0 < ((cell_lengths t).filter fun n => decide (500 < n)).length)

/-- Weak layout signal: no header row, at least 5 cells, positive mean
cell length and `statistics.stdev(cell_lengths) / mean > 2`.  With
`n = length`, `S = sum`, `Q = sum of squares` and `n ≥ 5`, the source
condition `mean > 0 and stdev/mean > 2` is exactly
`0 < S` and `(5n - 4) * S² < n² * Q` (clear the `n(n-1)` and `n²`
denominators of the sample variance and the squared mean); the
equivalence with the square-root form is proved in
`weak_variance_iff_spec` below. -/
def weak_variance (t : Table) : Bool :=
  let lens := cell_lengths t
  let n := lens.length
  let s := lens.sum
  let q := (lens.map fun x => x ^ 2).sum
  !table_has_header_row t && decide (4 < n) &&
    (decide (0 < s) && decide ((5 * n - 4) * s ^ 2 < n ^ 2 * q))

/-- Weak layout signal: two columns, more than two rows, no header row,
and more than 60% of the rows match the label/value shape:
`label_value_pattern / rows > 0.6`, written over ℕ as
`3 * rows < 5 * matches` (exact for a positive denominator). -/
def weak_label_value (t : Table) : Bool :=
  t.cols == 2 && decide (2 < t.rows.length) && !table_has_header_row t &&
    decide (3 * t.rows.length < 5 * (t.rows.filter label_value_row).length)

/-- The ordered reason strings produced by `check_layout_tables` for one
table, mirroring the `reasons.append` sites. -/
def layout_reasons (t : Table) : List Str :=
  let lens := cell_lengths t
  let total := lens.length
  let empty := (lens.filter fun n => n == 0).length
  let veryLong := (lens.filter fun n => decide (500 < n)).length
  (if strong_signal t then [chars "single column/row"] else []) ++
  (if weak_empty t then [natStr empty ++ chars "/" ++ natStr total ++ chars " empty cells"] else []) ++
  (if weak_long_cell t then [natStr veryLong ++ chars " cells with >500 chars"] else []) ++
  (if weak_variance t then [chars "inconsistent cell content lengths"] else []) ++
  (if weak_label_value t then [chars "label-value pattern detected"] else [])

/-- The layout classification of one table: `is_layout_table` is set as
soon as any of the five signals fires. -/
def classify_layout_table (t : Table) : Bool × List Str :=
  (strong_signal t || weak_empty t || weak_long_cell t ||
     weak_variance t || weak_label_value t,
   layout_reasons t)

/-- The `LAYOUT_TABLE` issue for table `i` (0-based). -/
def layoutIssue (i : Nat) (t : Table) (reasons : List Str) : Issue :=
  { issueType := chars "LAYOUT_TABLE"
  , description := chars "Table " ++ natStr (i + 1) ++
      chars " appears to be used for layout (" ++ joinSep (chars "; ") reasons ++
      chars "). Size: " ++ natStr t.rows.length ++ chars " rows × " ++
      natStr t.cols ++ chars " cols. Use headings and paragraphs instead."
  , location := chars "Table " ++ natStr (i + 1)
  , tableIndex := some i }

/-- Embeds `check_layout_tables`: one `LAYOUT_TABLE` issue per table classified
as layout. -/
def check_layout_tables (tables : List Table) : List Issue :=
  tables.enum.filterMap fun p =>
    let c := classify_layout_table p.2
    if c.1 then some (layoutIssue p.1 p.2 c.2) else none

/-- Division that signals Python's `ZeroDivisionError` as `none`. -/
def qdiv (a b : ℚ) : Option ℚ :=
  if b = 0 then none else some (a / b)

/-- Sequence a fallible computation over a list, stopping at the first
failure (the loop body of a Python `for` that may raise). -/
def optionTraverse {α β : Type} (f : α → Option β) : List α → Option (List β)
  | [] => some []
  | a :: l => (f a).bind fun b => (optionTraverse f l).map fun bs => b :: bs

/-- The empty-cell weak signal with Python's evaluation order made
explicit: the ratio `empty_cells / total_cells` is divided with `qdiv`
only after the short-circuiting `total_cells > 0` guard, so a division
reached with a zero denominator would surface as `none`. -/
def layout_w1_run (t : Table) : Option Bool :=
  let lens := cell_lengths t
  if !table_has_header_row t && decide (0 < lens.length) then
    (qdiv (((lens.filter fun n => n == 0).length : ℚ)) ((lens.length : ℚ))).bind
      fun r => pure (decide ((0.3 : ℚ) < r))
  else pure false

/-- The label/value weak signal with explicit division semantics: the
ratio `label_value_pattern / rows` is divided only under the
`cols == 2 and rows > 2` guard. -/
def layout_w4_run (t : Table) : Option Bool :=
  if t.cols == 2 && decide (2 < t.rows.length) && !table_has_header_row t then
    (qdiv (((t.rows.filter label_value_row).length : ℚ)) ((t.rows.length : ℚ))).bind
      fun r => pure (decide ((0.6 : ℚ) < r))
  else pure false

/-- The layout classification with Python's division semantics made
explicit.  The variance block sits in a `try/except: pass` in the
source, so it never raises and is kept total here. -/
def classify_layout_table_run (t : Table) : Option (Bool × List Str) := do
  let lens := cell_lengths t
  let total := lens.length
  let empty := (lens.filter fun n => n == 0).length
  let veryLong := (lens.filter fun n => decide (500 < n)).length
  let w1 ← layout_w1_run t
  let w2 := !table_has_header_row t && decide (0 < veryLong)
  let w3 := weak_variance t
  let w4 ← layout_w4_run t
  pure (strong_signal t || w1 || w2 || w3 || w4,
    (if strong_signal t then [chars "single column/row"] else []) ++
    (if w1 then [natStr empty ++ chars "/" ++ natStr total ++ chars " empty cells"] else []) ++
    (if w2 then [natStr veryLong ++ chars " cells with >500 chars"] else []) ++
    (if w3 then [chars "inconsistent cell content lengths"] else []) ++
    (if w4 then [chars "label-value pattern detected"] else []))

/-- Variant of `check_layout_tables` with explicit division semantics. -/
def check_layout_tables_run (tables : List Table) : Option (List Issue) :=
  (optionTraverse (fun p =>
    (classify_layout_table_run p.2).map fun c =>
      if c.1 then [layoutIssue p.1 p.2 c.2] else []) tables.enum).map List.flatten

/-- Computes `cleaned` in `check_table_numeric_alignment`: strip, remove every
`$`, `,`, `%`, and strip again. -/
def cleanNumericText (t : Str) : Str :=
  pyStrip ((pyStrip t).filter fun c => !(c == '$') && !(c == ',') && !(c == '%'))

/-- Distinct-value count of a list (`len(set(xs))`), keeping first
occurrences. -/
def distinctVals (l : List Str) : List Str :=
  l.foldl (fun acc a => if acc.contains a then acc else acc ++ [a]) []

/-- Scan one column of the scanned rows, accumulating
`(total_count, numeric_count, alignments)` exactly as the source loop
does.  `isNum` stands for the external `float()` parse test. -/
def numericColumnStats (isNum : Str → Bool) (rowsScanned : List (List Cell))
    (col : Nat) : Nat × Nat × List Str :=
  rowsScanned.foldl
    (fun acc row =>
      match row.get? col with
      | none => acc
      | some cell =>
        let txt := pyStrip cell.text
        if txt.isEmpty then acc
        else if isNum (cleanNumericText cell.text) then
          (acc.1 + 1, acc.2.1 + 1,
           match cell.paras.find? (fun p => !(pyStrip p.text).isEmpty) with
           | some p =>
             match p.align with
             | some a => acc.2.2 ++ [a]
             | none => acc.2.2
           | none => acc.2.2)
        else (acc.1 + 1, acc.2.1, acc.2.2))
    (0, 0, [])

/-- The `TABLE_INCONSISTENT_NUMERIC_ALIGNMENT` issue for table `i`,
column `col` (both 0-based). -/
def numericAlignIssue (i col nAligns : Nat) : Issue :=
  { issueType := chars "TABLE_INCONSISTENT_NUMERIC_ALIGNMENT"
  , description := chars "Table " ++ natStr (i + 1) ++ chars ", Column " ++
      natStr (col + 1) ++
      chars " contains numeric data with inconsistent alignment (found " ++
      natStr nAligns ++ chars " different alignments)"
  , location := chars "Table " ++ natStr (i + 1) ++ chars ", Column " ++ natStr (col + 1)
  , tableIndex := some i }

/-- Per-column decision of `check_table_numeric_alignment`: flag when the
column has content, is more than 70% numeric
(`numeric_count / total_count > 0.7`, over ℕ `7 * total < 10 * numeric`),
and shows more than one distinct alignment. -/
def numericColumnIssue (isNum : Str → Bool) (i : Nat) (t : Table)
    (col : Nat) : Option Issue :=
  let startRow := if table_has_header_row t then 1 else 0
  let s := numericColumnStats isNum (t.rows.drop startRow) col
  if decide (0 < s.1) && decide (7 * s.1 < 10 * s.2.1) then
    if decide (1 < (distinctVals s.2.2).length) then
      some (numericAlignIssue i col (distinctVals s.2.2).length)
    else none
  else none

/-- Embeds `check_table_numeric_alignment`: scan every column of every table;
tables with no rows (or no columns) are skipped. -/
def check_table_numeric_alignment (isNum : Str → Bool)
    (tables : List Table) : List Issue :=
  tables.enum.flatMap fun p =>
    let numCols := if p.2.rows.isEmpty then 0 else p.2.cols
    if p.2.rows.length == 0 || numCols == 0 then []
    else (List.range numCols).filterMap fun col =>
      numericColumnIssue isNum p.1 p.2 col

/-- The `numeric_count / total_count > 0.7` test with explicit division
semantics: divided only after the `total_count > 0` guard. -/
def numericRatioRun (isNum : Str → Bool) (t : Table) (col : Nat) : Option Bool :=
  let startRow := if table_has_header_row t then 1 else 0
  let s := numericColumnStats isNum (t.rows.drop startRow) col
  if decide (0 < s.1) then
    (qdiv (s.2.1 : ℚ) (s.1 : ℚ)).bind fun r => pure (decide ((0.7 : ℚ) < r))
  else pure false

/-- Per-column decision with explicit division semantics. -/
def numericColumnIssueRun (isNum : Str → Bool) (i : Nat) (t : Table)
    (col : Nat) : Option (Option Issue) := do
  let startRow := if table_has_header_row t then 1 else 0
  let s := numericColumnStats isNum (t.rows.drop startRow) col
  let flagged ← numericRatioRun isNum t col
  pure (if flagged then
    if decide (1 < (distinctVals s.2.2).length) then
      some (numericAlignIssue i col (distinctVals s.2.2).length)
    else none
  else none)

/-- Variant of `check_table_numeric_alignment` with explicit division semantics. -/
def check_table_numeric_alignment_run (isNum : Str → Bool)
    (tables : List Table) : Option (List Issue) :=
  (optionTraverse (fun p =>
    let numCols := if p.2.rows.isEmpty then 0 else p.2.cols
    if p.2.rows.length == 0 || numCols == 0 then some []
    else (optionTraverse (fun col =>
      numericColumnIssueRun isNum p.1 p.2 col) (List.range numCols)).map fun l =>
        l.filterMap id) tables.enum).map List.flatten

/-- A flattened paragraph reference: its text and human-readable
location (`ParagraphInfo`). -/
structure ParaInfo where
  text : Str
  location : Str
deriving DecidableEq

/-- Embeds `_get_all_paragraphs`: top-level paragraphs in order, then table
paragraphs in table → row → cell → paragraph order, with their location
strings. -/
def all_paragraph_infos (d : Docu) : List ParaInfo :=
  (d.paras.enum.map fun p =>
    { text := p.2.text, location := chars "Paragraph " ++ natStr (p.1 + 1) }) ++
  (d.tables.enum.flatMap fun tp =>
    tp.2.rows.enum.flatMap fun rp =>
      rp.2.enum.flatMap fun cp =>
        cp.2.paras.map fun para =>
          { text := para.text
          , location := chars "Table " ++ natStr (tp.1 + 1) ++
              chars ", Row " ++ natStr (rp.1 + 1) ++
              chars ", Cell " ++ natStr (cp.1 + 1) })

/-- The texts of all flattened paragraphs. -/
def all_paragraph_texts (d : Docu) : List Str :=
  (all_paragraph_infos d).map fun p => p.text

/-- The `LONG_SENTENCE` issue for a stripped sentence `s` at `loc`. -/
def longSentenceIssue (loc : Str) (s : Str) : Issue :=
  { issueType := chars "LONG_SENTENCE"
  , description := chars "Sentence has " ++ natStr (word_count s) ++
      chars " words (>35 recommended): \"" ++
      (if decide (60 < s.length) then s.take 60 ++ chars "..." else s) ++ chars "\""
  , location := loc
  , tableIndex := none }

/-- The per-sentence loop of `check_long_sentences`: skip empty
sentences, flag the first one with more than 35 words and stop. -/
def longSentencesGo (loc : Str) : List Str → List Issue
  | [] => []
  | sRaw :: rest =>
    let s := pyStrip sRaw
    if s.isEmpty then longSentencesGo loc rest
    else if decide (35 < word_count s) then [longSentenceIssue loc s]
    else longSentencesGo loc rest

/-- Embeds `check_long_sentences` restricted to one paragraph: empty paragraphs
are skipped, otherwise the stripped text is split into sentences. -/
def check_long_sentences_para (loc : Str) (text : Str) : List Issue :=
  let t := pyStrip text
  if t.isEmpty then [] else longSentencesGo loc (split_sentences t)

/-- Embeds `check_long_sentences` over the whole document. -/
def check_long_sentences (d : Docu) : List Issue :=
  (all_paragraph_infos d).flatMap fun p =>
    check_long_sentences_para p.location p.text

/-- The `REQUIRED_SECTIONS` catalog: canonical name and lowercase
synonym keywords, in source order. -/
def required_sections : List (Str × List Str) :=
  [ (chars "Course Title", [chars "course title", chars "course name"])
  , (chars "Instructor", [chars "instructor", chars "professor", chars "teacher"])
  , (chars "Welcome Statement", [chars "welcome"])
  , (chars "Course Overview", [chars "course overview", chars "overview", chars "course description"])
  , (chars "Course Objectives", [chars "course objectives", chars "objectives", chars "goals"])
  , (chars "Student Learning Outcomes", [chars "student learning outcomes", chars "learning outcomes", chars "outcomes"])
  , (chars "Assessment", [chars "assessment"])
  , (chars "Prerequisites", [chars "prerequisites", chars "prerequisite", chars "required skills"])
  , (chars "Course Modality", [chars "course modality", chars "modality", chars "format", chars "meeting times"])
  , (chars "Course Materials", [chars "course materials", chars "materials", chars "textbook", chars "required materials"])
  , (chars "Time Investment", [chars "time investment", chars "expected workload", chars "time commitment"])
  , (chars "Assignments & Grading", [chars "assignments", chars "grading", chars "grade"])
  , (chars "Grading Scheme", [chars "grading scheme", chars "grade breakdown"])
  , (chars "Grading Scale", [chars "grading scale", chars "grade scale"])
  , (chars "Course Policies", [chars "course policies", chars "policies"])
  , (chars "University Policies", [chars "university policies", chars "uwm policies"])
  , (chars "Resources", [chars "resources", chars "student resources"])
  , (chars "Academic Supports", [chars "academic supports", chars "tutoring", chars "academic resources"])
  , (chars "Important Dates", [chars "important dates", chars "key dates", chars "deadlines"])
  , (chars "Calendar", [chars "calendar", chars "schedule"])
  ]

/-- Embeds `_extract_sections`: stripped text of every paragraph whose style
name starts with `Heading`, top-level first, then table cells in
table → row → cell order. -/
def extract_sections (d : Docu) : List Str :=
  (d.paras.filter fun p => leadsWith (chars "Heading") p.styleName).map
    (fun p => pyStrip p.text) ++
  d.tables.flatMap fun t =>
    t.rows.flatMap fun r =>
      r.flatMap fun c =>
        (c.paras.filter fun p => leadsWith (chars "Heading") p.styleName).map
          fun p => pyStrip p.text

/-- Embeds `_find_section`: a heading contains a keyword, or some paragraph
contains a keyword and its stripped text is under 100 characters. -/
def find_section (d : Docu) (terms : List Str) : Bool :=
  (extract_sections d).any (fun s => terms.any fun term =>
    containsSub (lowerStr s) term) ||
  (all_paragraph_texts d).any fun p =>
    (terms.any fun term => containsSub (lowerStr p) term) &&
      decide ((pyStrip p).length < 100)

/-- The catalog loop of `check_missing_sections`, appending each
unmatched canonical name in order. -/
def missingGo (d : Docu) : List (Str × List Str) → List Str
  | [] => []
  | e :: rest =>
    if find_section d e.2 then missingGo d rest
    else e.1 :: missingGo d rest

/-- Embeds `check_missing_sections`. -/
def check_missing_sections (d : Docu) : List Str :=
  missingGo d required_sections

/-- The 80-dash divider line of the report. -/
def dashLine : Str := List.replicate 80 '-'

/-- The `SMALL_FONT` issues picked out by the FONT SIZES report section. -/
def small_font_issues (issues : List Issue) : List Issue :=
  issues.filter fun i => i.issueType == chars "SMALL_FONT"

/-- The example line rendered for one issue in the FONT SIZES section. -/
def fontExampleLine (i : Issue) : Str :=
  chars "  - " ++ i.location ++ chars ": " ++ i.description

/-- The FONT SIZES section of `generate_report`: its examples are capped
at the first 5, with a trailing `... and N more` line beyond that. -/
def render_font_sizes (issues : List Issue) : List Str :=
  let fi := small_font_issues issues
  [chars "ACCESSIBILITY: FONT SIZES", dashLine] ++
  (if fi.isEmpty then [chars "[OK] All text meets minimum font size requirements"]
   else
     [chars "[X] Found " ++ natStr fi.length ++
        chars " paragraph(s) with font size below 11pt:",
      chars "    (Minimum recommended size is 11pt for accessibility)"] ++
     (fi.take 5).map fontExampleLine ++
     (if decide (5 < fi.length) then
        [chars "  ... and " ++ natStr (fi.length - 5) ++ chars " more"]
      else [])) ++
  [chars ""]

/-- The `LAYOUT_TABLE` issues picked out by the LAYOUT vs. DATA TABLES
report section. -/
def layout_table_issues (issues : List Issue) : List Issue :=
  issues.filter fun i => i.issueType == chars "LAYOUT_TABLE"

/-- The example line rendered for one issue in the table-structure
sections (description only). -/
def descExampleLine (i : Issue) : Str :=
  chars "  - " ++ i.description

/-- The LAYOUT vs. DATA TABLES section of `generate_report`: every issue
is listed, with no truncation. -/
def render_layout_tables (issues : List Issue) (tableCount : Nat) : List Str :=
  let li := layout_table_issues issues
  [chars "ACCESSIBILITY: LAYOUT vs. DATA TABLES", dashLine] ++
  (if li.isEmpty then
     (if decide (0 < tableCount) then
        [chars "[OK] Tables appear to contain tabular data (not layout)"]
      else [chars "[OK] No tables to check"])
   else
     (chars "[X] Found " ++ natStr li.length ++
        chars " tables used for layout (should use headings/paragraphs):") ::
     li.map descExampleLine) ++
  [chars ""]

/-- The `TABLE_NO_HEADER` issues picked out by the TABLE HEADERS report
section. -/
def table_header_issues (issues : List Issue) : List Issue :=
  issues.filter fun i => i.issueType == chars "TABLE_NO_HEADER"

/-- The TABLE HEADERS section of `generate_report`: every issue is
listed, with no truncation. -/
def render_table_headers (issues : List Issue) (tableCount : Nat) : List Str :=
  let ti := table_header_issues issues
  [chars "ACCESSIBILITY: TABLE HEADERS", dashLine] ++
  (if ti.isEmpty then
     (if decide (0 < tableCount) then
        [chars "[OK] All tables appear to have headers"]
      else [chars "[OK] No tables to check"])
   else
     (chars "[X] Found " ++ natStr ti.length ++
        chars " tables without proper headers:") ::
     ti.map descExampleLine) ++
  [chars ""]

/-- Embeds `adjust_channel` in `calculate_relative_luminance`: sRGB-to-linear
conversion of one 0–255 channel. -/
noncomputable def adjust_channel (channel : ℕ) : ℝ :=
  let c : ℝ := channel / 255
  if c ≤ 0.03928 then c / 12.92 else ((c + 0.055) / 1.055) ^ (2.4 : ℝ)

/-- Embeds `calculate_relative_luminance` (WCAG formula). -/
noncomputable def calculate_relative_luminance (rgb : ℕ × ℕ × ℕ) : ℝ :=
  0.2126 * adjust_channel rgb.1 + 0.7152 * adjust_channel rgb.2.1 +
    0.0722 * adjust_channel rgb.2.2

/-- Embeds `calculate_contrast_ratio` (WCAG formula). -/
noncomputable def calculate_contrast_ratio (c1 c2 : ℕ × ℕ × ℕ) : ℝ :=
  let lum1 := calculate_relative_luminance c1
  let lum2 := calculate_relative_luminance c2
  (max lum1 lum2 + 0.05) / (min lum1 lum2 + 0.05)

/-- The checker object state touched by `run_all_checks`: the document
(read-only) and the `issues` list it overwrites. -/
structure Checker where
  doc : Docu
  issues : List Issue
deriving DecidableEq

/-- Embeds `run_all_checks`: reset `issues` to `[]`, then extend it with each
detector's output in order.  A detector reads the document and — as
`check_manual_alignment` does — may read the issues accumulated so far,
which is why it receives both. -/
def run_all_checks (dets : List (Docu → List Issue → List Issue))
    (c : Checker) : Checker :=
  { c with issues := dets.foldl (fun acc f => acc ++ f c.doc acc) [] }

/-- The detectors embedded in this development, as entries of the
registry run by `run_all_checks` (each reads only the document). -/
def embedded_detectors (isNum : Str → Bool) :
    List (Docu → List Issue → List Issue) :=
  [ fun d _ => check_table_headers d.tables
  , fun d _ => check_layout_tables d.tables
  , fun d _ => check_table_numeric_alignment isNum d.tables
  , fun d _ => check_long_sentences d ]

/-- Comparison `k ≥ n * 0.5` over ℚ matches the integer comparison `n ≤ 2 * k`. -/
theorem halfLeIff (n k : ℕ) : (n : ℚ) * 0.5 ≤ (k : ℚ) ↔ n ≤ 2 * k := by
  constructor <;> intro h
  · have h2 : (n : ℚ) ≤ 2 * k := by linarith
    exact_mod_cast h2
  · have h2 : (n : ℚ) ≤ 2 * k := by exact_mod_cast h
    linarith

/-- Threshold comparison of a ratio of naturals against `p / q`,
reduced to integer arithmetic (for a positive denominator). -/
theorem ratioGtIff (p q a b : ℕ) (hb : 0 < b) (hq : 0 < q) :
    (p : ℚ) / (q : ℚ) < (a : ℚ) / (b : ℚ) ↔ p * b < a * q := by
  rw [div_lt_div_iff₀ (by exact_mod_cast hq) (by exact_mod_cast hb)]
  constructor <;> intro h
  · exact_mod_cast h
  · exact_mod_cast h

/-- The per-indicator 50% majorities of `_table_has_header_row`, stated
over ℚ as the source writes them. -/
def bold_majority (row : List Cell) : Prop :=
  (row.length : ℚ) * 0.5 ≤ ((row.filter cellHasBold).length : ℚ)

/-- Shading majority of the first row. -/
def shaded_majority (row : List Cell) : Prop :=
  (row.length : ℚ) * 0.5 ≤ ((row.filter cellShaded).length : ℚ)

/-- Large-font majority of the first row. -/
def large_majority (row : List Cell) : Prop :=
  (row.length : ℚ) * 0.5 ≤ ((row.filter cellHasLargeFont).length : ℚ)

/-- The majority the claim describes instead: cells showing at least one
of the three indicators, counted together. -/
def any_indicator_majority (row : List Cell) : Prop :=
  (row.length : ℚ) * 0.5 ≤
    ((row.filter fun c => cellHasBold c || cellShaded c || cellHasLargeFont c).length : ℚ)

/-- Theorem: `_table_has_header_row` decides exactly the disjunction of the three
per-indicator majorities. -/
theorem table_has_header_row_iff (t : Table) (fr : List Cell)
    (rest : List (List Cell)) (h : t.rows = fr :: rest) :
    table_has_header_row t = true ↔
      bold_majority fr ∨ shaded_majority fr ∨ large_majority fr := by
  rw [table_has_header_row, h]
  simp only [Bool.or_eq_true, decide_eq_true_eq]
  rw [bold_majority, shaded_majority, large_majority, halfLeIff, halfLeIff, halfLeIff]
  tauto

/-- Layout signals of `check_layout_tables`, stated as the source
formulas read: one row or one column. -/
def strong_signal_spec (t : Table) : Prop :=
  t.cols = 1 ∨ t.rows.length = 1

/-- No header row and `empty_cells / total_cells > 0.3`. -/
def weak_empty_spec (t : Table) : Prop :=
  table_has_header_row t = false ∧ 0 < (cell_lengths t).length ∧
    (0.3 : ℚ) < (((cell_lengths t).filter fun n => n == 0).length : ℚ) /
      ((cell_lengths t).length : ℚ)

/-- No header row and some cell with stripped text longer than 500
characters. -/
def weak_long_cell_spec (t : Table) : Prop :=
  table_has_header_row t = false ∧ ∃ n ∈ cell_lengths t, 500 < n

/-- No header row, at least 5 cells, positive mean and
`stdev(cell_lengths) / mean(cell_lengths) > 2`, with the sample standard
deviation written as the real square root of the sample variance. -/
def weak_variance_spec (t : Table) : Prop :=
  table_has_header_row t = false ∧ 4 < (cell_lengths t).length ∧
    0 < qmean (cell_lengths t) ∧
    (2 : ℝ) < Real.sqrt ((sampleVar (cell_lengths t) : ℝ)) /
      ((qmean (cell_lengths t) : ℝ))

/-- Two columns, more than two rows, no header row, and
`label_value_pattern / rows > 0.6`. -/
def weak_label_value_spec (t : Table) : Prop :=
  t.cols = 2 ∧ 2 < t.rows.length ∧ table_has_header_row t = false ∧
    (0.6 : ℚ) < ((t.rows.filter label_value_row).length : ℚ) / (t.rows.length : ℚ)

theorem strong_signal_iff (t : Table) :
    strong_signal t = true ↔ strong_signal_spec t := by
  rw [strong_signal, strong_signal_spec]
  simp

theorem weak_empty_iff (t : Table) :
    weak_empty t = true ↔ weak_empty_spec t := by
  rw [weak_empty, weak_empty_spec]
  simp only [Bool.and_eq_true, Bool.not_eq_true', decide_eq_true_eq, and_assoc]
  constructor
  · rintro ⟨h1, h2, h3⟩
    refine ⟨h1, h2, ?_⟩
    rw [show (0.3 : ℚ) = (3 : ℕ) / (10 : ℕ) by norm_num,
      ratioGtIff 3 10 _ _ h2 (by norm_num)]
    omega
  · rintro ⟨h1, h2, h3⟩
    refine ⟨h1, h2, ?_⟩
    rw [show (0.3 : ℚ) = (3 : ℕ) / (10 : ℕ) by norm_num,
      ratioGtIff 3 10 _ _ h2 (by norm_num)] at h3
    omega

theorem weak_long_cell_iff (t : Table) :
    weak_long_cell t = true ↔ weak_long_cell_spec t := by
  rw [weak_long_cell, weak_long_cell_spec]
  simp only [Bool.and_eq_true, Bool.not_eq_true', decide_eq_true_eq]
  constructor
  · rintro ⟨h1, h2⟩
    refine ⟨h1, ?_⟩
    rcases List.length_pos.mp h2 with h3
    have := List.exists_mem_of_length_pos h2
    rcases this with ⟨n, hn⟩
    exact ⟨n, (List.mem_filter.mp hn).1, by
      have := (List.mem_filter.mp hn).2; simpa using this⟩
  · rintro ⟨h1, n, hn, h500⟩
    refine ⟨h1, ?_⟩
    apply List.length_pos.mpr
    intro hemp
    have : n ∈ ((cell_lengths t).filter fun n => decide (500 < n)) :=
      List.mem_filter.mpr ⟨hn, by simpa using h500⟩
    rw [hemp] at this
    exact absurd this (List.not_mem_nil n)

theorem weak_label_value_iff (t : Table) :
    weak_label_value t = true ↔ weak_label_value_spec t := by
  rw [weak_label_value, weak_label_value_spec]
  simp only [Bool.and_eq_true, Bool.not_eq_true', decide_eq_true_eq, beq_iff_eq,
    and_assoc]
  constructor
  · rintro ⟨h1, h2, h3, h4⟩
    refine ⟨h1, h2, h3, ?_⟩
    rw [show (0.6 : ℚ) = (3 : ℕ) / (5 : ℕ) by norm_num,
      ratioGtIff 3 5 _ _ (by omega) (by norm_num)]
    omega
  · rintro ⟨h1, h2, h3, h4⟩
    refine ⟨h1, h2, h3, ?_⟩
    rw [show (0.6 : ℚ) = (3 : ℕ) / (5 : ℕ) by norm_num,
      ratioGtIff 3 5 _ _ (by omega) (by norm_num)] at h4
    omega

/-- The integer sum of a list of naturals, as a rational. -/
def natSum (l : List ℕ) : ℚ := (l.sum : ℚ)

/-- The integer sum of squares of a list of naturals, as a rational. -/
def natSumSq (l : List ℕ) : ℚ := Nat.cast (l.map fun x => x ^ 2).sum

theorem natSum_cons (a : ℕ) (l : List ℕ) :
    natSum (a :: l) = (a : ℚ) + natSum l := by
  simp [natSum]

theorem natSumSq_cons (a : ℕ) (l : List ℕ) :
    natSumSq (a :: l) = (a : ℚ) ^ 2 + natSumSq l := by
  simp only [natSumSq, List.map_cons, List.sum_cons, Nat.cast_add, Nat.cast_pow]

theorem sumSqDev (l : List ℕ) (m : ℚ) :
    (l.map fun x => ((Nat.cast x : ℚ) - m) ^ 2).sum =
      natSumSq l - 2 * m * natSum l + (l.length : ℚ) * m ^ 2 := by
  induction l with
  | nil => simp [natSum, natSumSq]
  | cons a l ih =>
    simp only [List.map_cons, List.sum_cons, List.length_cons, natSum_cons,
      natSumSq_cons, ih]
    push_cast
    ring

/-- The sample variance written over the integer sum `S` and sum of
squares `Q`: `(n·Q - S²) / (n·(n-1))`. -/
theorem sampleVar_eq (l : List ℕ) (hn : l.length ≠ 0) :
    sampleVar l =
      ((l.length : ℚ) * natSumSq l - natSum l ^ 2) /
        ((l.length : ℚ) * ((l.length : ℚ) - 1)) := by
  have hq : ((l.length : ℚ)) ≠ 0 := Nat.cast_ne_zero.mpr hn
  have hqm : qmean l = natSum l / (l.length : ℚ) := rfl
  rw [sampleVar, sumSqDev, hqm]
  have hS : natSumSq l - 2 * (natSum l / (l.length : ℚ)) * natSum l +
      (l.length : ℚ) * (natSum l / (l.length : ℚ)) ^ 2 =
        ((l.length : ℚ) * natSumSq l - natSum l ^ 2) / (l.length : ℚ) := by
    field_simp
    ring
  rw [hS, div_div]

theorem sampleVar_nonneg (l : List ℕ) (hn : 2 ≤ l.length) :
    0 ≤ sampleVar l := by
  rw [sampleVar]
  apply div_nonneg
  · apply List.sum_nonneg
    intro x hx
    rcases List.mem_map.mp hx with ⟨a, _, ha⟩
    rw [← ha]
    exact sq_nonneg _
  · have : (2 : ℚ) ≤ (l.length : ℚ) := by exact_mod_cast hn
    linarith

theorem qmean_pos_iff (l : List ℕ) (hn : l.length ≠ 0) :
    0 < qmean l ↔ 0 < l.sum := by
  have hq : (0 : ℚ) < (l.length : ℚ) := by
    have : 0 < l.length := Nat.pos_of_ne_zero hn
    exact_mod_cast this
  rw [qmean, div_pos_iff]
  constructor
  · rintro (⟨h1, _⟩ | ⟨_, h2⟩)
    · exact_mod_cast h1
    · linarith
  · intro h
    exact Or.inl ⟨by exact_mod_cast h, hq⟩

/-- The integer comparison of `weak_variance` matches the source's
`stdev/mean > 2` exactly, for a positive mean and at least 5 cells. -/
theorem variance_ratio_iff (l : List ℕ) (h5 : 4 < l.length) (hs : 0 < l.sum) :
    ((5 * l.length - 4) * l.sum ^ 2 < l.length ^ 2 * (l.map fun x => x ^ 2).sum) ↔
      (2 : ℝ) < Real.sqrt ((sampleVar l : ℝ)) / ((qmean l : ℝ)) := by
  have hn0 : l.length ≠ 0 := by omega
  have hnq : (0 : ℚ) < (l.length : ℚ) := by exact_mod_cast Nat.pos_of_ne_zero hn0
  have hm : 0 < qmean l := (qmean_pos_iff l hn0).mpr hs
  have hmr : (0 : ℝ) < ((qmean l : ℚ) : ℝ) := by exact_mod_cast hm
  -- right side ↔ 4 * mean² < variance, over ℝ
  have step1 : ((2 : ℝ) < Real.sqrt ((sampleVar l : ℝ)) / ((qmean l : ℚ) : ℝ)) ↔
      4 * ((qmean l : ℚ) : ℝ) ^ 2 < ((sampleVar l : ℚ) : ℝ) := by
    rw [lt_div_iff₀ hmr]
    constructor
    · intro h
      have h1 : 0 ≤ 2 * ((qmean l : ℚ) : ℝ) := by linarith
      have h2 := (Real.lt_sqrt h1).mp h
      calc 4 * ((qmean l : ℚ) : ℝ) ^ 2 = (2 * ((qmean l : ℚ) : ℝ)) ^ 2 := by ring
        _ < _ := h2
    · intro h
      have h1 : 0 ≤ 2 * ((qmean l : ℚ) : ℝ) := by linarith
      apply (Real.lt_sqrt h1).mpr
      calc (2 * ((qmean l : ℚ) : ℝ)) ^ 2 = 4 * ((qmean l : ℚ) : ℝ) ^ 2 := by ring
        _ < _ := h
  -- move to ℚ
  have step2 : (4 * ((qmean l : ℚ) : ℝ) ^ 2 < ((sampleVar l : ℝ))) ↔
      4 * qmean l ^ 2 < sampleVar l := by
    constructor
    · intro h; exact_mod_cast h
    · intro h; exact_mod_cast h
  rw [step1, step2]
  -- over ℚ, clear denominators
  have hqm : qmean l = natSum l / (l.length : ℚ) := rfl
  rw [hqm, sampleVar_eq l hn0]
  have hden1 : (0 : ℚ) < (l.length : ℚ) ^ 2 := by positivity
  have hden2 : (0 : ℚ) < (l.length : ℚ) * ((l.length : ℚ) - 1) := by
    have : (4 : ℚ) < (l.length : ℚ) := by exact_mod_cast h5
    nlinarith
  have lhs_eq : 4 * (natSum l / (l.length : ℚ)) ^ 2 =
      4 * natSum l ^ 2 / (l.length : ℚ) ^ 2 := by
    field_simp
  rw [lhs_eq, div_lt_div_iff₀ hden1 hden2]
  have castStep : ((5 * l.length - 4) * l.sum ^ 2 <
        l.length ^ 2 * (l.map fun x => x ^ 2).sum) ↔
      (5 * (l.length : ℚ) - 4) * natSum l ^ 2 < (l.length : ℚ) ^ 2 * natSumSq l := by
    rw [← Nat.cast_lt (α := ℚ)]
    have h45 : (4 : ℕ) ≤ 5 * l.length := by omega
    have c1 : ((5 * l.length - 4 : ℕ) : ℚ) = 5 * (l.length : ℚ) - 4 := by
      push_cast [h45]
      ring
    simp only [Nat.cast_mul, Nat.cast_pow, c1]
    have c2 : ((l.sum : ℕ) : ℚ) = natSum l := rfl
    have c3 : (((l.map fun x => x ^ 2).sum : ℕ) : ℚ) = natSumSq l := rfl
    rw [c2, c3]
  rw [castStep]
  constructor
  · intro h
    have key : (l.length : ℚ) * ((5 * (l.length : ℚ) - 4) * natSum l ^ 2) <
        (l.length : ℚ) * ((l.length : ℚ) ^ 2 * natSumSq l) :=
      mul_lt_mul_of_pos_left h hnq
    nlinarith [key]
  · intro h
    have key : (l.length : ℚ) * ((5 * (l.length : ℚ) - 4) * natSum l ^ 2) <
        (l.length : ℚ) * ((l.length : ℚ) ^ 2 * natSumSq l) := by nlinarith [h]
    exact (mul_lt_mul_left hnq).mp key

theorem weak_variance_iff (t : Table) :
    weak_variance t = true ↔ weak_variance_spec t := by
  rw [weak_variance, weak_variance_spec]
  simp only [Bool.and_eq_true, Bool.not_eq_true', decide_eq_true_eq, and_assoc]
  constructor
  · rintro ⟨h1, h2, h3, h4⟩
    have hn0 : (cell_lengths t).length ≠ 0 := by omega
    exact ⟨h1, h2, (qmean_pos_iff _ hn0).mpr h3,
      (variance_ratio_iff _ h2 h3).mp h4⟩
  · rintro ⟨h1, h2, h3, h4⟩
    have hn0 : (cell_lengths t).length ≠ 0 := by omega
    have hs := (qmean_pos_iff _ hn0).mp h3
    exact ⟨h1, h2, hs, (variance_ratio_iff _ h2 hs).mpr h4⟩

theorem layout_w1_run_eq (t : Table) :
    layout_w1_run t = some (weak_empty t) := by
  rw [layout_w1_run, weak_empty]
  by_cases hg : (!table_has_header_row t &&
      decide (0 < (cell_lengths t).length)) = true
  · rw [if_pos hg]
    have htot : 0 < (cell_lengths t).length := by
      simp only [Bool.and_eq_true, decide_eq_true_eq] at hg
      exact hg.2
    have hne : ((cell_lengths t).length : ℚ) ≠ 0 := by
      exact_mod_cast Nat.pos_iff_ne_zero.mp htot
    rw [qdiv, if_neg hne]
    rw [Option.some_bind]
    have hd : decide ((0.3 : ℚ) <
        ((((cell_lengths t).filter fun n => n == 0).length : ℚ)) /
          (((cell_lengths t).length : ℚ))) =
        decide (3 * (cell_lengths t).length <
          10 * ((cell_lengths t).filter fun n => n == 0).length) := by
      apply decide_eq_decide.mpr
      rw [show (0.3 : ℚ) = (3 : ℕ) / (10 : ℕ) by norm_num,
        ratioGtIff 3 10 _ _ htot (by norm_num)]
      omega
    rw [hg, hd, Bool.true_and]
    rfl
  · rw [if_neg hg]
    have hgf : (!table_has_header_row t &&
        decide (0 < (cell_lengths t).length)) = false := by
      simpa using hg
    rw [hgf, Bool.false_and]
    rfl

theorem layout_w4_run_eq (t : Table) :
    layout_w4_run t = some (weak_label_value t) := by
  rw [layout_w4_run, weak_label_value]
  by_cases hg : (t.cols == 2 && decide (2 < t.rows.length) &&
      !table_has_header_row t) = true
  · rw [if_pos hg]
    have hrows : 2 < t.rows.length := by
      simp only [Bool.and_eq_true, decide_eq_true_eq] at hg
      exact hg.1.2
    have hne : ((t.rows.length : ℚ)) ≠ 0 := by
      exact_mod_cast (by omega : t.rows.length ≠ 0)
    rw [qdiv, if_neg hne, Option.some_bind]
    have hd : decide ((0.6 : ℚ) <
        (((t.rows.filter label_value_row).length : ℚ)) / ((t.rows.length : ℚ))) =
        decide (3 * t.rows.length < 5 * (t.rows.filter label_value_row).length) := by
      apply decide_eq_decide.mpr
      rw [show (0.6 : ℚ) = (3 : ℕ) / (5 : ℕ) by norm_num,
        ratioGtIff 3 5 _ _ (by omega) (by norm_num)]
      omega
    rw [hg, hd, Bool.true_and]
    rfl
  · rw [if_neg hg]
    have hgf : (t.cols == 2 && decide (2 < t.rows.length) &&
        !table_has_header_row t) = false := by
      simpa using hg
    rw [hgf, Bool.false_and]
    rfl

theorem classify_layout_table_run_eq (t : Table) :
    classify_layout_table_run t = some (classify_layout_table t) := by
  rw [classify_layout_table_run, layout_w1_run_eq, layout_w4_run_eq]
  simp only [Option.some_bind]
  rfl

theorem numericRatioRun_eq (isNum : Str → Bool) (t : Table) (col : Nat) :
    numericRatioRun isNum t col =
      some (decide (0 < (numericColumnStats isNum
              (t.rows.drop (if table_has_header_row t then 1 else 0)) col).1) &&
            decide (7 * (numericColumnStats isNum
              (t.rows.drop (if table_has_header_row t then 1 else 0)) col).1 <
              10 * (numericColumnStats isNum
              (t.rows.drop (if table_has_header_row t then 1 else 0)) col).2.1)) := by
  rw [numericRatioRun]
  set s := numericColumnStats isNum
    (t.rows.drop (if table_has_header_row t then 1 else 0)) col with hs
  by_cases hg : decide (0 < s.1) = true
  · rw [if_pos hg]
    have htot : 0 < s.1 := of_decide_eq_true hg
    have hne : ((s.1 : ℚ)) ≠ 0 := by
      exact_mod_cast (by omega : s.1 ≠ 0)
    rw [qdiv, if_neg hne, Option.some_bind]
    have hd : decide ((0.7 : ℚ) < ((s.2.1 : ℚ)) / ((s.1 : ℚ))) =
        decide (7 * s.1 < 10 * s.2.1) := by
      apply decide_eq_decide.mpr
      rw [show (0.7 : ℚ) = (7 : ℕ) / (10 : ℕ) by norm_num,
        ratioGtIff 7 10 _ _ htot (by norm_num)]
      omega
    rw [hg, hd, Bool.true_and]
    rfl
  · rw [if_neg hg]
    have hgf : decide (0 < s.1) = false := by simpa using hg
    rw [hgf, Bool.false_and]
    rfl

theorem numericColumnIssueRun_eq (isNum : Str → Bool) (i : Nat) (t : Table)
    (col : Nat) :
    numericColumnIssueRun isNum i t col = some (numericColumnIssue isNum i t col) := by
  rw [numericColumnIssueRun, numericRatioRun_eq]
  rfl

theorem optionTraverse_eq_map {α β : Type} (f : α → Option β) (g : α → β)
    (l : List α) (h : ∀ a ∈ l, f a = some (g a)) :
    optionTraverse f l = some (l.map g) := by
  induction l with
  | nil => rfl
  | cons a l ih =>
    have ha := h a (List.mem_cons_self a l)
    have hrest := ih fun x hx => h x (List.mem_cons_of_mem a hx)
    rw [optionTraverse, ha, hrest]
    rfl

theorem flatten_map_ite {α β : Type} (l : List α) (p : α → Bool) (f : α → β) :
    (l.map fun a => if p a then [f a] else []).flatten =
      l.filterMap fun a => if p a then some (f a) else none := by
  induction l with
  | nil => rfl
  | cons a l ih =>
    by_cases hp : p a = true
    · simp [hp, ih]
    · simp [hp, ih]

theorem check_layout_tables_run_eq (tables : List Table) :
    check_layout_tables_run tables = some (check_layout_tables tables) := by
  rw [check_layout_tables_run]
  rw [optionTraverse_eq_map _
    (fun p => if (classify_layout_table p.2).1
      then [layoutIssue p.1 p.2 (classify_layout_table p.2).2] else [])
    tables.enum
    (by
      intro a _
      rw [classify_layout_table_run_eq]
      rfl)]
  rw [Option.map_some']
  rw [check_layout_tables, flatten_map_ite]

theorem filterMap_id_map {α β : Type} (g : α → Option β) (l : List α) :
    (l.map g).filterMap id = l.filterMap g := by
  induction l with
  | nil => rfl
  | cons a l ih =>
    cases ha : g a with
    | none => simp [ha, ih]
    | some b => simp [ha, ih]

theorem flatten_eq_flatMap {α β : Type} (g : α → List β) (l : List α) :
    (l.map g).flatten = l.flatMap g := by
  induction l with
  | nil => rfl
  | cons a l ih => simp [ih]

theorem check_table_numeric_alignment_run_eq (isNum : Str → Bool)
    (tables : List Table) :
    check_table_numeric_alignment_run isNum tables =
      some (check_table_numeric_alignment isNum tables) := by
  rw [check_table_numeric_alignment_run]
  rw [optionTraverse_eq_map _
    (fun p =>
      let numCols := if p.2.rows.isEmpty then 0 else p.2.cols
      if p.2.rows.length == 0 || numCols == 0 then []
      else (List.range numCols).filterMap fun col =>
        numericColumnIssue isNum p.1 p.2 col)
    tables.enum
    (by
      intro p _
      show (if p.2.rows.length == 0 || (if p.2.rows.isEmpty then 0 else p.2.cols) == 0
          then some []
          else (optionTraverse (fun col =>
            numericColumnIssueRun isNum p.1 p.2 col)
            (List.range (if p.2.rows.isEmpty then 0 else p.2.cols))).map fun l =>
              l.filterMap id) = _
      by_cases hg : (p.2.rows.length == 0 ||
          (if p.2.rows.isEmpty then 0 else p.2.cols) == 0) = true
      · rw [if_pos hg]
        show some [] = some (if _ then _ else _)
        rw [if_pos hg]
      · rw [if_neg hg]
        rw [optionTraverse_eq_map _
          (fun col => numericColumnIssue isNum p.1 p.2 col) _
          (fun col _ => numericColumnIssueRun_eq isNum p.1 p.2 col)]
        rw [Option.map_some']
        show some _ = some (if _ then _ else _)
        rw [if_neg hg, filterMap_id_map])]
  rw [Option.map_some', check_table_numeric_alignment, flatten_eq_flatMap]

/-- A cell holding one unstyled paragraph with the given text. -/
def plainCell (t : String) : Cell :=
  { paras := [{ styleName := chars "Normal", runs := [], text := chars t, align := none }]
  , text := chars t, fill := none }

/-- A cell holding one paragraph with a bold run. -/
def boldCell (t : String) : Cell :=
  { paras := [{ styleName := chars "Normal",
                runs := [{ bold := true, szHalfPt := none }],
                text := chars t, align := none }]
  , text := chars t, fill := none }

/-- A cell with a grey shading fill. -/
def shadedCell (t : String) : Cell :=
  { paras := [{ styleName := chars "Normal", runs := [], text := chars t, align := none }]
  , text := chars t, fill := some (chars "D9D9D9") }

/-- An issue record with the given type and description. -/
def mkIssue (ty desc : String) : Issue :=
  { issueType := chars ty, description := chars desc
  , location := chars "L", tableIndex := none }

theorem filterLenMono {α : Type} (l : List α) (p q : α → Bool)
    (h : ∀ a, p a = true → q a = true) :
    (l.filter p).length ≤ (l.filter q).length := by
  induction l with
  | nil => simp
  | cons a l ih =>
    by_cases hp : p a = true
    · rw [List.filter_cons_of_pos hp, List.filter_cons_of_pos (h a hp)]
      simpa using ih
    · rw [List.filter_cons_of_neg (by simpa using hp)]
      by_cases hq : q a = true
      · rw [List.filter_cons_of_pos hq]
        exact le_trans ih (by simp)
      · rw [List.filter_cons_of_neg (by simpa using hq)]
        exact ih

/-- C10: the header-row test's edge cases.  A table with no rows at all
has no header; a table whose first row exists but contains zero cells is
reported as having a header, because every `count >= num_cells * 0.5`
majority holds vacuously at `0 >= 0` — and downstream, such a table is
treated as having a header: `check_table_headers` does not flag it and
every header-suppressed weak layout signal is off. -/
theorem claim_C10 :
    (∀ t : Table, t.rows = [] → table_has_header_row t = false) ∧
    (∀ (t : Table) (rest : List (List Cell)), t.rows = [] :: rest →
      table_has_header_row t = true) ∧
    (∀ (t : Table) (rest : List (List Cell)), t.rows = [] :: rest →
      check_table_headers [t] = []) ∧
    (∀ (t : Table) (rest : List (List Cell)), t.rows = [] :: rest →
      weak_empty t = false ∧ weak_long_cell t = false ∧
        weak_variance t = false ∧ weak_label_value t = false) := by
  have hempty : ∀ (t : Table) (rest : List (List Cell)), t.rows = [] :: rest →
      table_has_header_row t = true := by
    intro t rest h
    rw [table_has_header_row, h]
    simp
  refine ⟨?_, hempty, ?_, ?_⟩
  · intro t h
    rw [table_has_header_row, h]
  · intro t rest h
    rw [check_table_headers]
    simp [hempty t rest h]
  · intro t rest h
    have hh := hempty t rest h
    refine ⟨?_, ?_, ?_, ?_⟩
    · rw [weak_empty, hh]; rfl
    · rw [weak_long_cell, hh]; rfl
    · rw [weak_variance, hh]; rfl
    · rw [weak_label_value, hh]
      simp

/-- Witness for C10 at concrete degenerate tables. -/
theorem claim_C10_witness :
    table_has_header_row { rows := [], cols := 0 } = false ∧
    table_has_header_row { rows := [[]], cols := 2 } = true ∧
    check_table_headers [{ rows := [[], [plainCell "a"]], cols := 2 }] = [] :=
  ⟨claim_C10.1 _ rfl, claim_C10.2.1 _ [] rfl, claim_C10.2.2.1 _ [[plainCell "a"]] rfl⟩

/-- C2 counterexample: a first row of 4 cells — one bold, one shaded,
two plain — has 50% of its cells showing *some* indicator (the majority
the claim describes), yet `_table_has_header_row` returns `false`,
because it takes each indicator's 50% majority separately (bold 1/4,
shaded 1/4, large font 0/4). -/
theorem claim_C2_counterexample :
    table_has_header_row
      { rows := [[boldCell "a", shadedCell "b", plainCell "c", plainCell "d"]]
      , cols := 4 } = false ∧
    any_indicator_majority [boldCell "a", shadedCell "b", plainCell "c", plainCell "d"] := by
  constructor
  · decide
  · rw [any_indicator_majority]
    have hf : ([boldCell "a", shadedCell "b", plainCell "c", plainCell "d"].filter
        fun c => cellHasBold c || cellShaded c || cellHasLargeFont c).length = 2 := by
      decide
    have hl : ([boldCell "a", shadedCell "b", plainCell "c", plainCell "d"] :
        List Cell).length = 4 := by decide
    rw [hf, hl]
    norm_num

/-- C2 (amended): for every table with at least one row, the first row is
detected as a header row if and only if at least 50% of its cells are
bold, or at least 50% are shaded, or at least 50% use a font above 11pt —
each indicator's majority taken separately.  Each separate majority
implies the claim's any-indicator majority, so detection is strictly
stronger than the claim's condition, not equal to it. -/
theorem claim_C2_amended :
    (∀ (t : Table) (fr : List Cell) (rest : List (List Cell)), t.rows = fr :: rest →
      (table_has_header_row t = true ↔
        bold_majority fr ∨ shaded_majority fr ∨ large_majority fr)) ∧
    (∀ (t : Table) (fr : List Cell) (rest : List (List Cell)), t.rows = fr :: rest →
      table_has_header_row t = true → any_indicator_majority fr) := by
  have mono : ∀ (fr : List Cell) (p : Cell → Bool),
      (∀ c, p c = true → (cellHasBold c || cellShaded c || cellHasLargeFont c) = true) →
      (fr.length : ℚ) * 0.5 ≤ ((fr.filter p).length : ℚ) →
      any_indicator_majority fr := by
    intro fr p hp h
    rw [halfLeIff] at h
    rw [any_indicator_majority, halfLeIff]
    have := filterLenMono fr p
      (fun c => cellHasBold c || cellShaded c || cellHasLargeFont c) hp
    omega
  refine ⟨fun t fr rest h => table_has_header_row_iff t fr rest h, ?_⟩
  intro t fr rest h hh
  rcases (table_has_header_row_iff t fr rest h).mp hh with hb | hs | hl
  · exact mono fr cellHasBold (by intro c hc; simp [hc]) hb
  · exact mono fr cellShaded (by intro c hc; simp [hc]) hs
  · exact mono fr cellHasLargeFont (by intro c hc; simp [hc]) hl

/-- Witness for C2 (amended) at a concrete bold-header table. -/
theorem claim_C2_amended_witness :
    (table_has_header_row
      { rows := [[boldCell "a", boldCell "b"], [plainCell "x", plainCell "y"]]
      , cols := 2 } = true ↔
      bold_majority [boldCell "a", boldCell "b"] ∨
        shaded_majority [boldCell "a", boldCell "b"] ∨
        large_majority [boldCell "a", boldCell "b"]) ∧
    any_indicator_majority [boldCell "a", boldCell "b"] :=
  ⟨claim_C2_amended.1
      { rows := [[boldCell "a", boldCell "b"], [plainCell "x", plainCell "y"]]
      , cols := 2 } [boldCell "a", boldCell "b"] [[plainCell "x", plainCell "y"]] rfl,
   claim_C2_amended.2
      { rows := [[boldCell "a", boldCell "b"], [plainCell "x", plainCell "y"]]
      , cols := 2 } [boldCell "a", boldCell "b"] [[plainCell "x", plainCell "y"]] rfl
      (by decide)⟩

/-- How many of the four weak layout signals fire for a table. -/
def weak_signal_count (t : Table) : ℕ :=
  [weak_empty t, weak_long_cell t, weak_variance t, weak_label_value t].count true

/-- C1 counterexample: a 2×2 table with three empty cells, no header row
and plain content fires exactly one weak signal (the empty-cell ratio
3/4 > 0.3) and no strong signal, yet `check_layout_tables` classifies it
as layout — a single weak signal alone suffices, contradicting the
claim's "two or more weak signals" rule. -/
theorem claim_C1_counterexample :
    (classify_layout_table
      { rows := [[plainCell "a", plainCell ""], [plainCell "", plainCell ""]]
      , cols := 2 }).1 = true ∧
    strong_signal
      { rows := [[plainCell "a", plainCell ""], [plainCell "", plainCell ""]]
      , cols := 2 } = false ∧
    weak_signal_count
      { rows := [[plainCell "a", plainCell ""], [plainCell "", plainCell ""]]
      , cols := 2 } = 1 := by
  refine ⟨by decide, by decide, by decide⟩

/-- C1 (amended): a table classifies as layout if and only if a strong
signal holds (exactly 1 row or exactly 1 column) or **at least one**
weak signal fires (the weak signals being as the claim lists them, with
the label/value shape additionally requiring more than 2 rows); in
particular any 1-column table classifies layout and is flagged. -/
theorem claim_C1_amended :
    (∀ t : Table, (classify_layout_table t).1 = true ↔
      (strong_signal_spec t ∨ weak_empty_spec t ∨ weak_long_cell_spec t ∨
        weak_variance_spec t ∨ weak_label_value_spec t)) ∧
    (∀ t : Table, t.cols = 1 → (classify_layout_table t).1 = true) ∧
    (∀ t : Table, t.cols = 1 → check_layout_tables [t] ≠ []) := by
  have hiff : ∀ t : Table, (classify_layout_table t).1 = true ↔
      (strong_signal_spec t ∨ weak_empty_spec t ∨ weak_long_cell_spec t ∨
        weak_variance_spec t ∨ weak_label_value_spec t) := by
    intro t
    rw [classify_layout_table]
    simp only [Bool.or_eq_true]
    rw [strong_signal_iff, weak_empty_iff, weak_long_cell_iff,
      weak_variance_iff, weak_label_value_iff]
    tauto
  have hcol : ∀ t : Table, t.cols = 1 → (classify_layout_table t).1 = true := by
    intro t h
    exact (hiff t).mpr (Or.inl (Or.inl h))
  refine ⟨hiff, hcol, ?_⟩
  intro t h
  rw [check_layout_tables]
  intro hc
  have : (if (classify_layout_table t).1
      then some (layoutIssue 0 t (classify_layout_table t).2) else none) = none := by
    have hmem : (0, t) ∈ [t].enum := by simp [List.enum]
    by_contra hne
    rcases Option.ne_none_iff_exists'.mp hne with ⟨is_, his⟩
    have : is_ ∈ List.filterMap (fun p =>
        let c := classify_layout_table p.2
        if c.1 then some (layoutIssue p.1 p.2 c.2) else none) [t].enum :=
      List.mem_filterMap.mpr ⟨(0, t), hmem, his⟩
    rw [hc] at this
    exact absurd this (List.not_mem_nil is_)
  rw [hcol t h] at this
  simp at this

/-- Witness for C1 (amended) at a concrete single-column table. -/
theorem claim_C1_amended_witness :
    ({ rows := [[plainCell "x"], [plainCell "y"]], cols := 1 } : Table).cols = 1 ∧
    (classify_layout_table
      { rows := [[plainCell "x"], [plainCell "y"]], cols := 1 }).1 = true ∧
    check_layout_tables [{ rows := [[plainCell "x"], [plainCell "y"]], cols := 1 }] ≠ [] :=
  ⟨rfl,
   claim_C1_amended.2.1 { rows := [[plainCell "x"], [plainCell "y"]], cols := 1 } rfl,
   claim_C1_amended.2.2 { rows := [[plainCell "x"], [plainCell "y"]], cols := 1 } rfl⟩

/-- C3: a table with an entirely bold first row, 12 data rows, 2 columns
and no empty cells produces neither `LAYOUT_TABLE` nor `TABLE_NO_HEADER`;
`TABLE_NO_HEADER` is emitted exactly for tables with more than one row
that fail the header test, and every weak layout signal is off once a
header row is present. -/
theorem claim_C3 :
    (∀ t : Table, table_has_header_row t = true →
      weak_empty t = false ∧ weak_long_cell t = false ∧
        weak_variance t = false ∧ weak_label_value t = false) ∧
    (∀ t : Table, check_table_headers [t] ≠ [] ↔
      (table_has_header_row t = false ∧ 1 < t.rows.length)) ∧
    (∀ t : Table, t.rows.length = 13 → t.cols = 2 →
      (∀ c ∈ t.rows.headD [], cellHasBold c = true) →
      (∀ r ∈ t.rows, ∀ c ∈ r, pyStrip c.text ≠ []) →
      check_layout_tables [t] = [] ∧ check_table_headers [t] = []) := by
  have hsupp : ∀ t : Table, table_has_header_row t = true →
      weak_empty t = false ∧ weak_long_cell t = false ∧
        weak_variance t = false ∧ weak_label_value t = false := by
    intro t hh
    refine ⟨?_, ?_, ?_, ?_⟩
    · rw [weak_empty, hh]; rfl
    · rw [weak_long_cell, hh]; rfl
    · rw [weak_variance, hh]; rfl
    · rw [weak_label_value, hh]; simp
  have hheaders : ∀ t : Table, check_table_headers [t] ≠ [] ↔
      (table_has_header_row t = false ∧ 1 < t.rows.length) := by
    intro t
    rw [check_table_headers]
    constructor
    · intro hne
      by_cases hc : (!table_has_header_row t && decide (1 < t.rows.length)) = true
      · simp only [Bool.and_eq_true, Bool.not_eq_true', decide_eq_true_eq] at hc
        exact hc
      · exfalso
        apply hne
        simp only [List.enum]
        simp [List.filterMap, hc]
    · rintro ⟨h1, h2⟩
      have hc : (!table_has_header_row t && decide (1 < t.rows.length)) = true := by
        simp [h1, h2]
      simp only [List.enum]
      simp [List.filterMap, hc]
  refine ⟨hsupp, hheaders, ?_⟩
  intro t h13 hcols hbold hnonempty
  -- the bold first row is a header
  obtain ⟨fr, rest, hr⟩ : ∃ fr rest, t.rows = fr :: rest := by
    cases hrows : t.rows with
    | nil => rw [hrows] at h13; simp at h13
    | cons a l => exact ⟨a, l, rfl⟩
  have hbold' : ∀ c ∈ fr, cellHasBold c = true := by
    intro c hc
    apply hbold
    rw [hr]
    simpa using hc
  have hh : table_has_header_row t = true := by
    rw [table_has_header_row, hr]
    have hfilter : fr.filter cellHasBold = fr := List.filter_eq_self.mpr hbold'
    show (decide (fr.length ≤ 2 * (fr.filter cellHasBold).length) ||
      decide (fr.length ≤ 2 * (fr.filter cellShaded).length) ||
      decide (fr.length ≤ 2 * (fr.filter cellHasLargeFont).length)) = true
    rw [hfilter]
    have h1 : decide (fr.length ≤ 2 * fr.length) = true := decide_eq_true (by omega)
    rw [h1]
    rfl
  have hw := hsupp t hh
  have hclass : (classify_layout_table t).1 = false := by
    rw [classify_layout_table]
    have hstrong : strong_signal t = false := by
      rw [strong_signal]
      simp only [Bool.or_eq_false_iff, beq_eq_false_iff_ne, ne_eq]
      constructor
      · omega
      · omega
    simp [hstrong, hw.1, hw.2.1, hw.2.2.1, hw.2.2.2]
  constructor
  · rw [check_layout_tables]
    simp only [List.enum]
    simp [List.filterMap, hclass]
  · by_contra hne
    have := (hheaders t).mp hne
    rw [hh] at this
    simp at this

/-- The spec scenario's table: a bold header row over 12 two-column data
rows with no empty cells. -/
def c3Table : Table :=
  { rows := [boldCell "H1", boldCell "H2"] ::
      List.replicate 12 [plainCell "k", plainCell "value"]
  , cols := 2 }

/-- Witness for C3: the concrete bold-headed 13×2 table of the spec's
scenario. -/
theorem claim_C3_witness :
    check_layout_tables [c3Table] = [] ∧ check_table_headers [c3Table] = [] :=
  claim_C3.2.2 c3Table (by decide) rfl (by decide) (by decide)

theorem foldl_id {α β : Type} (f : β → α → β) (l : List α)
    (h : ∀ b, ∀ a ∈ l, f b a = b) : ∀ b, l.foldl f b = b := by
  induction l with
  | nil => intro b; rfl
  | cons a l ih =>
    intro b
    rw [List.foldl_cons, h b a (List.mem_cons_self a l)]
    exact ih (fun b x hx => h b x (List.mem_cons_of_mem a hx)) b

theorem numericColumnStats_all_empty (isNum : Str → Bool)
    (rowsScanned : List (List Cell)) (col : Nat)
    (h : ∀ r ∈ rowsScanned, ∀ c ∈ r, pyStrip c.text = []) :
    numericColumnStats isNum rowsScanned col = (0, 0, []) := by
  rw [numericColumnStats]
  apply foldl_id
  intro acc row hrow
  cases hg : row.get? col with
  | none => rfl
  | some cell =>
    have hc : cell ∈ row := List.get?_mem hg
    have he : pyStrip cell.text = [] := h row hrow cell hc
    simp [hg, he]

/-- C9: the ratio-computing table detectors are division-safe.  The
explicit-division variants of `check_layout_tables` and
`check_table_numeric_alignment` always return a value (never the
`ZeroDivisionError` result) and agree with the total functions, because
every division sits behind its denominator's emptiness/positivity guard;
and on degenerate tables — no rows, or all cell texts empty — the
guarded ratio paths emit no issue at all. -/
theorem claim_C9 :
    (∀ tables : List Table,
      check_layout_tables_run tables = some (check_layout_tables tables)) ∧
    (∀ (isNum : Str → Bool) (tables : List Table),
      check_table_numeric_alignment_run isNum tables =
        some (check_table_numeric_alignment isNum tables)) ∧
    (∀ t : Table, t.rows = [] → t.cols ≠ 1 → check_layout_tables [t] = []) ∧
    (∀ (isNum : Str → Bool) (t : Table),
      (∀ r ∈ t.rows, ∀ c ∈ r, pyStrip c.text = []) →
      check_table_numeric_alignment isNum [t] = []) := by
  refine ⟨check_layout_tables_run_eq,
    check_table_numeric_alignment_run_eq, ?_, ?_⟩
  · intro t hrows hcols
    have hclass : (classify_layout_table t).1 = false := by
      rw [classify_layout_table]
      have h1 : strong_signal t = false := by
        rw [strong_signal, hrows]
        simp [hcols]
      have h2 : weak_empty t = false := by
        rw [weak_empty, cell_lengths, hrows]
        simp
      have h3 : weak_long_cell t = false := by
        rw [weak_long_cell, cell_lengths, hrows]
        simp
      have h4 : weak_variance t = false := by
        rw [weak_variance, cell_lengths, hrows]
        simp
      have h5 : weak_label_value t = false := by
        rw [weak_label_value, hrows]
        simp
      rw [h1, h2, h3, h4, h5]
      rfl
    rw [check_layout_tables]
    simp only [List.enum]
    simp [List.filterMap, hclass]
  · intro isNum t hempty
    rw [check_table_numeric_alignment]
    have hsingle : ∀ col : Nat, numericColumnIssue isNum 0 t col = none := by
      intro col
      rw [numericColumnIssue]
      have hstats : numericColumnStats isNum
          (t.rows.drop (if table_has_header_row t then 1 else 0)) col = (0, 0, []) := by
        apply numericColumnStats_all_empty
        intro r hr
        exact hempty r (List.drop_subset _ t.rows hr)
      rw [hstats]
      rfl
    simp only [List.enum]
    simp [List.flatMap, hsingle]

/-- Witness for C9 at a zero-row table and at an all-empty-cells table. -/
theorem claim_C9_witness :
    check_layout_tables [{ rows := [], cols := 0 }] = [] ∧
    check_table_numeric_alignment (fun _ => true)
      [{ rows := [[plainCell "", plainCell " "], [plainCell "", plainCell ""]]
       , cols := 2 }] = [] :=
  ⟨claim_C9.2.2.1 { rows := [], cols := 0 } rfl (by decide),
   claim_C9.2.2.2 (fun _ => true)
     { rows := [[plainCell "", plainCell " "], [plainCell "", plainCell ""]]
     , cols := 2 } (by decide)⟩

/-- C4: the WCAG luminance of black is 0 and of white is 1, and the
contrast ratio of black text on a white background is exactly 21. -/
theorem claim_C4 :
    calculate_relative_luminance (0, 0, 0) = 0 ∧
    calculate_relative_luminance (255, 255, 255) = 1 ∧
    calculate_contrast_ratio (0, 0, 0) (255, 255, 255) = 21 := by
  have h0 : adjust_channel 0 = 0 := by
    rw [adjust_channel]
    show (if ((0 : ℕ) : ℝ) / 255 ≤ 0.03928 then ((0 : ℕ) : ℝ) / 255 / 12.92
      else ((((0 : ℕ) : ℝ) / 255 + 0.055) / 1.055) ^ (2.4 : ℝ)) = 0
    rw [if_pos (by norm_num)]
    norm_num
  have h255 : adjust_channel 255 = 1 := by
    rw [adjust_channel]
    show (if ((255 : ℕ) : ℝ) / 255 ≤ 0.03928 then ((255 : ℕ) : ℝ) / 255 / 12.92
      else ((((255 : ℕ) : ℝ) / 255 + 0.055) / 1.055) ^ (2.4 : ℝ)) = 1
    rw [if_neg (by norm_num)]
    have : ((((255 : ℕ) : ℝ) / 255 + 0.055) / 1.055) = 1 := by norm_num
    rw [this, Real.one_rpow]
  have hblack : calculate_relative_luminance (0, 0, 0) = 0 := by
    rw [calculate_relative_luminance]
    simp only [h0]
    norm_num
  have hwhite : calculate_relative_luminance (255, 255, 255) = 1 := by
    rw [calculate_relative_luminance]
    simp only [h255]
    norm_num
  refine ⟨hblack, hwhite, ?_⟩
  rw [calculate_contrast_ratio]
  show (max (calculate_relative_luminance (0, 0, 0))
      (calculate_relative_luminance (255, 255, 255)) + 0.05) /
    (min (calculate_relative_luminance (0, 0, 0))
      (calculate_relative_luminance (255, 255, 255)) + 0.05) = 21
  rw [hblack, hwhite]
  norm_num

/-- C6: `run_all_checks` resets the issue list before extending it with
each detector's output, so running it twice on the same unmodified
document yields the same issue list as running it once — nothing
accumulates and nothing is reordered — and the resulting list is a
function of the document alone, independent of any issues a prior run
left on the checker.  Instantiated at the embedded detectors, the result
is the ordered concatenation of their outputs. -/
theorem claim_C6 :
    (∀ (dets : List (Docu → List Issue → List Issue)) (c : Checker),
      run_all_checks dets (run_all_checks dets c) = run_all_checks dets c) ∧
    (∀ (dets : List (Docu → List Issue → List Issue)) (c c' : Checker),
      c.doc = c'.doc →
      (run_all_checks dets c).issues = (run_all_checks dets c').issues) ∧
    (∀ (isNum : Str → Bool) (c : Checker),
      (run_all_checks (embedded_detectors isNum) c).issues =
        check_table_headers c.doc.tables ++
          check_layout_tables c.doc.tables ++
          check_table_numeric_alignment isNum c.doc.tables ++
          check_long_sentences c.doc) := by
  refine ⟨?_, ?_, ?_⟩
  · intro dets c
    cases c with
    | mk doc issues => simp [run_all_checks]
  · intro dets c c' h
    cases c with
    | mk doc issues =>
      cases c' with
      | mk doc' issues' =>
        simp only [run_all_checks]
        simp only at h
        rw [h]
  · intro isNum c
    cases c with
    | mk doc issues =>
      simp [run_all_checks, embedded_detectors, List.foldl]

/-- Witness for C6: two checkers sharing a document but starting from
different issue lists produce the same output issues. -/
theorem claim_C6_witness :
    ({ doc := { paras := [], tables := [] }, issues := [mkIssue "SMALL_FONT" "d"] } :
        Checker).doc =
      ({ doc := { paras := [], tables := [] }, issues := [] } : Checker).doc ∧
    (run_all_checks []
      { doc := { paras := [], tables := [] }, issues := [mkIssue "SMALL_FONT" "d"] }).issues =
    (run_all_checks []
      { doc := { paras := [], tables := [] }, issues := [] }).issues :=
  ⟨rfl,
   claim_C6.2.1 []
     { doc := { paras := [], tables := [] }, issues := [mkIssue "SMALL_FONT" "d"] }
     { doc := { paras := [], tables := [] }, issues := [] } rfl⟩

theorem missingGo_eq (d : Docu) (l : List (Str × List Str)) :
    missingGo d l = (l.filter fun e => !find_section d e.2).map Prod.fst := by
  induction l with
  | nil => rfl
  | cons e l ih =>
    rw [missingGo]
    by_cases hf : find_section d e.2 = true
    · rw [if_pos hf]
      rw [List.filter_cons_of_neg (by simp [hf])]
      exact ih
    · rw [if_neg hf]
      rw [List.filter_cons_of_pos (by simp [Bool.not_eq_true] at hf; simp [hf])]
      rw [List.map_cons, ih]

/-- C5: for every catalog entry, the match succeeds exactly when some
extracted heading contains one of its keywords (case-insensitive
substring) or some paragraph whose stripped text is under 100 characters
contains one; the missing-sections result is the unmatched entries in
catalog order; the catalog has 20 entries; a document with a heading
literally "Course Overview" never reports Course Overview missing; and a
document matching nothing returns all 20 names. -/
theorem claim_C5 (d : Docu) :
    (∀ name terms, (name, terms) ∈ required_sections →
      (find_section d terms = true ↔
        ((∃ s ∈ extract_sections d, ∃ term ∈ terms,
            containsSub (lowerStr s) term = true) ∨
         (∃ p ∈ all_paragraph_texts d,
            (∃ term ∈ terms, containsSub (lowerStr p) term = true) ∧
            (pyStrip p).length < 100)))) ∧
    check_missing_sections d =
      (required_sections.filter fun e => !find_section d e.2).map Prod.fst ∧
    required_sections.length = 20 ∧
    ((∃ p ∈ d.paras, leadsWith (chars "Heading") p.styleName = true ∧
        pyStrip p.text = chars "Course Overview") →
      chars "Course Overview" ∉ check_missing_sections d) ∧
    ((∀ e ∈ required_sections, find_section d e.2 = false) →
      check_missing_sections d = required_sections.map Prod.fst) := by
  have hgo : check_missing_sections d =
      (required_sections.filter fun e => !find_section d e.2).map Prod.fst :=
    missingGo_eq d required_sections
  refine ⟨?_, hgo, by decide, ?_, ?_⟩
  · intro name terms _
    rw [find_section]
    simp only [Bool.or_eq_true, List.any_eq_true, Bool.and_eq_true,
      decide_eq_true_eq]
  · rintro ⟨p, hp, hstyle, htext⟩
    intro hin
    have hsec : chars "Course Overview" ∈ extract_sections d := by
      rw [extract_sections]
      apply List.mem_append_left
      apply List.mem_map.mpr
      exact ⟨p, List.mem_filter.mpr ⟨hp, hstyle⟩, htext⟩
    have hfind : ∀ terms : List Str, chars "course overview" ∈ terms →
        find_section d terms = true := by
      intro terms hterm
      rw [find_section, Bool.or_eq_true]
      left
      apply List.any_eq_true.mpr
      refine ⟨chars "Course Overview", hsec, ?_⟩
      apply List.any_eq_true.mpr
      exact ⟨chars "course overview", hterm, by decide⟩
    rw [hgo] at hin
    rcases List.mem_map.mp hin with ⟨e, hef, he1⟩
    rcases List.mem_filter.mp hef with ⟨hemem, heneg⟩
    have huniq : ∀ e ∈ required_sections, e.1 = chars "Course Overview" →
        chars "course overview" ∈ e.2 := by decide
    have := hfind e.2 (huniq e hemem he1)
    rw [this] at heneg
    exact absurd heneg (by decide)
  · intro hall
    rw [hgo, List.filter_eq_self.mpr]
    intro e he
    simp [hall e he]

/-- A document whose only paragraph is a "Course Overview" heading. -/
def c5DocHeading : Docu :=
  { paras := [{ styleName := chars "Heading 1", runs := []
              , text := chars "Course Overview", align := none }]
  , tables := [] }

/-- A document with no content at all. -/
def c5EmptyDoc : Docu := { paras := [], tables := [] }

/-- Witness for C5 at concrete documents. -/
theorem claim_C5_witness :
    (find_section c5DocHeading [chars "assessment"] = true ↔
      ((∃ s ∈ extract_sections c5DocHeading, ∃ term ∈ [chars "assessment"],
          containsSub (lowerStr s) term = true) ∨
       (∃ p ∈ all_paragraph_texts c5DocHeading,
          (∃ term ∈ [chars "assessment"], containsSub (lowerStr p) term = true) ∧
          (pyStrip p).length < 100))) ∧
    chars "Course Overview" ∉ check_missing_sections c5DocHeading ∧
    check_missing_sections c5EmptyDoc = required_sections.map Prod.fst :=
  ⟨(claim_C5 c5DocHeading).1 (chars "Assessment") [chars "assessment"] (by decide),
   (claim_C5 c5DocHeading).2.2.2.1
     ⟨{ styleName := chars "Heading 1", runs := []
      , text := chars "Course Overview", align := none },
      by decide, by decide, by decide⟩,
   (claim_C5 c5EmptyDoc).2.2.2.2 (by decide)⟩

/-- C7 counterexample: with six `LAYOUT_TABLE` issues, the LAYOUT
vs. DATA TABLES report section lists all six example lines — the sixth
issue's line is present and no `... and N more` truncation line appears
anywhere in the section, contradicting the claim that every category
truncates at 5 examples. -/
theorem claim_C7_counterexample :
    (chars "  - d6") ∈ render_layout_tables
      [mkIssue "LAYOUT_TABLE" "d1", mkIssue "LAYOUT_TABLE" "d2",
       mkIssue "LAYOUT_TABLE" "d3", mkIssue "LAYOUT_TABLE" "d4",
       mkIssue "LAYOUT_TABLE" "d5", mkIssue "LAYOUT_TABLE" "d6"] 6 ∧
    (render_layout_tables
      [mkIssue "LAYOUT_TABLE" "d1", mkIssue "LAYOUT_TABLE" "d2",
       mkIssue "LAYOUT_TABLE" "d3", mkIssue "LAYOUT_TABLE" "d4",
       mkIssue "LAYOUT_TABLE" "d5", mkIssue "LAYOUT_TABLE" "d6"] 6).length = 10 ∧
    ((render_layout_tables
      [mkIssue "LAYOUT_TABLE" "d1", mkIssue "LAYOUT_TABLE" "d2",
       mkIssue "LAYOUT_TABLE" "d3", mkIssue "LAYOUT_TABLE" "d4",
       mkIssue "LAYOUT_TABLE" "d5", mkIssue "LAYOUT_TABLE" "d6"] 6).filter
        fun line => leadsWith (chars "  ... and") line) = [] := by
  refine ⟨by decide, by decide, by decide⟩

/-- C7 (amended): the `... and N more` truncation after 5 examples holds
for paragraph-level categories such as FONT SIZES, but the
table-structure categories (LAYOUT vs. DATA TABLES, TABLE HEADERS) list
every issue's line with no truncation. -/
theorem claim_C7_amended :
    (∀ issues : List Issue, 5 < (small_font_issues issues).length →
      render_font_sizes issues =
        [chars "ACCESSIBILITY: FONT SIZES", dashLine,
         chars "[X] Found " ++ natStr (small_font_issues issues).length ++
           chars " paragraph(s) with font size below 11pt:",
         chars "    (Minimum recommended size is 11pt for accessibility)"] ++
        ((small_font_issues issues).take 5).map fontExampleLine ++
        [chars "  ... and " ++ natStr ((small_font_issues issues).length - 5) ++
           chars " more", chars ""]) ∧
    (∀ issues : List Issue, (small_font_issues issues).length ≤ 5 →
      (small_font_issues issues).isEmpty = false →
      render_font_sizes issues =
        [chars "ACCESSIBILITY: FONT SIZES", dashLine,
         chars "[X] Found " ++ natStr (small_font_issues issues).length ++
           chars " paragraph(s) with font size below 11pt:",
         chars "    (Minimum recommended size is 11pt for accessibility)"] ++
        (small_font_issues issues).map fontExampleLine ++ [chars ""]) ∧
    (∀ (issues : List Issue) (tc : Nat), (layout_table_issues issues).isEmpty = false →
      render_layout_tables issues tc =
        [chars "ACCESSIBILITY: LAYOUT vs. DATA TABLES", dashLine,
         chars "[X] Found " ++ natStr (layout_table_issues issues).length ++
           chars " tables used for layout (should use headings/paragraphs):"] ++
        (layout_table_issues issues).map descExampleLine ++ [chars ""]) ∧
    (∀ (issues : List Issue) (tc : Nat), (table_header_issues issues).isEmpty = false →
      render_table_headers issues tc =
        [chars "ACCESSIBILITY: TABLE HEADERS", dashLine,
         chars "[X] Found " ++ natStr (table_header_issues issues).length ++
           chars " tables without proper headers:"] ++
        (table_header_issues issues).map descExampleLine ++ [chars ""]) := by
  refine ⟨?_, ?_, ?_, ?_⟩
  · intro issues h5
    have hne : (small_font_issues issues).isEmpty = false := by
      cases hsf : (small_font_issues issues) with
      | nil => rw [hsf] at h5; simp at h5
      | cons a l => rfl
    have hlt : decide (5 < (small_font_issues issues).length) = true :=
      decide_eq_true h5
    simp [render_font_sizes, hne, hlt, List.append_assoc]
  · intro issues h5 hne
    have hnlt : decide (5 < (small_font_issues issues).length) = false :=
      decide_eq_false (Nat.not_lt.mpr h5)
    have htake : (small_font_issues issues).take 5 = small_font_issues issues :=
      List.take_of_length_le h5
    simp [render_font_sizes, hne, hnlt, htake, List.append_assoc]
  · intro issues tc hne
    simp [render_layout_tables, hne, List.append_assoc]
  · intro issues tc hne
    simp [render_table_headers, hne, List.append_assoc]

/-- Six small-font issues, for exercising the truncating branch. -/
def c7Fonts : List Issue :=
  [mkIssue "SMALL_FONT" "f1", mkIssue "SMALL_FONT" "f2", mkIssue "SMALL_FONT" "f3",
   mkIssue "SMALL_FONT" "f4", mkIssue "SMALL_FONT" "f5", mkIssue "SMALL_FONT" "f6"]

/-- One small-font issue, for the non-truncating branch. -/
def c7Font1 : List Issue := [mkIssue "SMALL_FONT" "g1"]

/-- One layout-table issue. -/
def c7Layout : List Issue := [mkIssue "LAYOUT_TABLE" "t1"]

/-- One missing-header issue. -/
def c7Headers : List Issue := [mkIssue "TABLE_NO_HEADER" "h1"]

/-- Witness for C7 (amended) at concrete issue lists. -/
theorem claim_C7_amended_witness :
    (5 < (small_font_issues c7Fonts).length ∧
      render_font_sizes c7Fonts =
        [chars "ACCESSIBILITY: FONT SIZES", dashLine,
         chars "[X] Found " ++ natStr (small_font_issues c7Fonts).length ++
           chars " paragraph(s) with font size below 11pt:",
         chars "    (Minimum recommended size is 11pt for accessibility)"] ++
        ((small_font_issues c7Fonts).take 5).map fontExampleLine ++
        [chars "  ... and " ++ natStr ((small_font_issues c7Fonts).length - 5) ++
           chars " more", chars ""]) ∧
    ((small_font_issues c7Font1).length ≤ 5 ∧
      render_font_sizes c7Font1 =
        [chars "ACCESSIBILITY: FONT SIZES", dashLine,
         chars "[X] Found " ++ natStr (small_font_issues c7Font1).length ++
           chars " paragraph(s) with font size below 11pt:",
         chars "    (Minimum recommended size is 11pt for accessibility)"] ++
        (small_font_issues c7Font1).map fontExampleLine ++ [chars ""]) ∧
    ((layout_table_issues c7Layout).isEmpty = false ∧
      render_layout_tables c7Layout 1 =
        [chars "ACCESSIBILITY: LAYOUT vs. DATA TABLES", dashLine,
         chars "[X] Found " ++ natStr (layout_table_issues c7Layout).length ++
           chars " tables used for layout (should use headings/paragraphs):"] ++
        (layout_table_issues c7Layout).map descExampleLine ++ [chars ""]) ∧
    ((table_header_issues c7Headers).isEmpty = false ∧
      render_table_headers c7Headers 1 =
        [chars "ACCESSIBILITY: TABLE HEADERS", dashLine,
         chars "[X] Found " ++ natStr (table_header_issues c7Headers).length ++
           chars " tables without proper headers:"] ++
        (table_header_issues c7Headers).map descExampleLine ++ [chars ""]) :=
  ⟨⟨by decide, claim_C7_amended.1 c7Fonts (by decide)⟩,
   ⟨by decide, claim_C7_amended.2.1 c7Font1 (by decide) (by decide)⟩,
   ⟨by decide, claim_C7_amended.2.2.1 c7Layout 1 (by decide)⟩,
   ⟨by decide, claim_C7_amended.2.2.2 c7Headers 1 (by decide)⟩⟩

theorem longSentencesGo_eq (loc : Str) (ss : List Str) :
    longSentencesGo loc ss =
      match (ss.map pyStrip).find? (fun s => decide (35 < word_count s)) with
      | some s => [longSentenceIssue loc s]
      | none => [] := by
  induction ss with
  | nil => rfl
  | cons s rest ih =>
    rw [longSentencesGo, List.map_cons, List.find?_cons]
    by_cases he : (pyStrip s).isEmpty = true
    · rw [if_pos he]
      have hz : pyStrip s = [] := List.isEmpty_iff.mp he
      have hw : decide (35 < word_count (pyStrip s)) = false := by
        rw [hz]
        decide
      rw [hw]
      exact ih
    · rw [if_neg he]
      by_cases hw : decide (35 < word_count (pyStrip s)) = true
      · rw [if_pos hw, hw]
      · rw [if_neg hw]
        have hwf : decide (35 < word_count (pyStrip s)) = false := by
          simpa using hw
        rw [hwf]
        exact ih

/-- C8: per paragraph, the long-sentence detector emits at most one
issue; it emits exactly the issue for the first stripped sentence with
more than 35 words when one exists (so a paragraph whose sentences all
have at most 35 words — in particular exactly 35 — is never flagged, and
a paragraph containing a sentence of 36 or more words is flagged). -/
theorem claim_C8 (loc text : Str) :
    (check_long_sentences_para loc text).length ≤ 1 ∧
    (check_long_sentences_para loc text =
      match ((split_sentences (pyStrip text)).map pyStrip).find?
          (fun s => decide (35 < word_count s)) with
      | some s => [longSentenceIssue loc s]
      | none => []) ∧
    ((∀ s ∈ split_sentences (pyStrip text), word_count (pyStrip s) ≤ 35) →
      check_long_sentences_para loc text = []) ∧
    ((∃ s ∈ split_sentences (pyStrip text), 35 < word_count (pyStrip s)) →
      check_long_sentences_para loc text ≠ []) := by
  have hmain : check_long_sentences_para loc text =
      match ((split_sentences (pyStrip text)).map pyStrip).find?
          (fun s => decide (35 < word_count s)) with
      | some s => [longSentenceIssue loc s]
      | none => [] := by
    rw [check_long_sentences_para]
    by_cases he : (pyStrip text).isEmpty = true
    · rw [if_pos he]
      have hz : pyStrip text = [] := List.isEmpty_iff.mp he
      rw [hz]
      have hnone : ((split_sentences ([] : Str)).map pyStrip).find?
          (fun s => decide (35 < word_count s)) = none := by decide
      rw [hnone]
    · rw [if_neg he]
      exact longSentencesGo_eq loc (split_sentences (pyStrip text))
  refine ⟨?_, hmain, ?_, ?_⟩
  · rw [hmain]
    cases ((split_sentences (pyStrip text)).map pyStrip).find?
        (fun s => decide (35 < word_count s)) with
    | none => simp
    | some s => simp
  · intro hall
    rw [hmain]
    have : ((split_sentences (pyStrip text)).map pyStrip).find?
        (fun s => decide (35 < word_count s)) = none := by
      apply List.find?_eq_none.mpr
      intro x hx
      rcases List.mem_map.mp hx with ⟨s, hs, hxs⟩
      rw [← hxs]
      simpa using Nat.not_lt.mpr (hall s hs)
    rw [this]
  · rintro ⟨s, hs, h36⟩
    rw [hmain]
    cases hfind : ((split_sentences (pyStrip text)).map pyStrip).find?
        (fun s => decide (35 < word_count s)) with
    | none =>
      exfalso
      have := List.find?_eq_none.mp hfind (pyStrip s) (List.mem_map_of_mem pyStrip hs)
      exact this (by simpa using h36)
    | some x => simp

/-- A paragraph consisting of one sentence of exactly 35 words. -/
def c8Text35 : Str :=
  chars "w w w w w w w w w w w w w w w w w w w w w w w w w w w w w w w w w w w."

/-- A paragraph consisting of one sentence of exactly 36 words. -/
def c8Text36 : Str :=
  chars "w w w w w w w w w w w w w w w w w w w w w w w w w w w w w w w w w w w w."

/-- Witness for C8: a 35-word sentence is not flagged, a 36-word sentence
is. -/
theorem claim_C8_witness :
    (∀ s ∈ split_sentences (pyStrip c8Text35), word_count (pyStrip s) ≤ 35) ∧
    check_long_sentences_para (chars "L") c8Text35 = [] ∧
    (∃ s ∈ split_sentences (pyStrip c8Text36), 35 < word_count (pyStrip s)) ∧
    check_long_sentences_para (chars "L") c8Text36 ≠ [] :=
  ⟨by decide, (claim_C8 (chars "L") c8Text35).2.2.1 (by decide),
   by decide, (claim_C8 (chars "L") c8Text36).2.2.2 (by decide)⟩
